import Mathlib

/-!
Verification of the HR decision-support rule engine: a shallow embedding of
the engagement classifier (`features/engagement.py`), the rule engine
(`decisions/rules.py`, `decisions/core.py`) and the action planner
(`actions/actions.py`) over a relational model of the Neo4j fact store.

Numeric survey scores are modelled as rationals; the fixed confidence
constants (0.7, 0.85, 0.9) are modelled as rationals since the code only
stores and compares them.  Wall-clock timestamp fields of the result
records are omitted.
-/

namespace AIDecision

/-- Python string formatting of an optional value: `None` renders as "None". -/
def pyStr : Option String → String
  | none => "None"
  | some s => s

/-- Python truthiness of an optional string (`if engagement:`):
`None` and the empty string are falsy. -/
def pyTruthy : Option String → Bool
  | none => false
  | some s => s ≠ ""

/-- Insertion-ordered dict update: replace the value in place if the key is
present, otherwise append the binding (Python `d[k] = v`). -/
def dictInsert (d : List (String × String)) (k v : String) : List (String × String) :=
  if d.any (fun p => p.1 = k) then
    d.map (fun p => if p.1 = k then (k, v) else p)
  else
    d ++ [(k, v)]

/-- Python `k in d` for an insertion-ordered dict. -/
def dictContains (d : List (String × String)) (k : String) : Bool :=
  d.any (fun p => p.1 = k)

/-! ## Fact store

The Neo4j graph, modelled relationally: `Employee` nodes carry the
properties the queries read (`id`, `name`, `level`); the `HAS_ROLE` and
`WORKS_IN` relations are stored joined with the target node's `title` /
`name`; a `HAS_SKILL` edge carries its optional `level` property. -/

structure EmployeeNode where
  id : String
  name : Option String
  level : Option String
deriving DecidableEq, Repr

structure FactStore where
  employees : List EmployeeNode
  hasRole : List (String × String)
  worksIn : List (String × String)
  hasSkill : List (String × String × Option String)
  reportsTo : List (String × String)
  skills : List String
deriving DecidableEq, Repr

/-- Row returned by `analyze_employee_from_db`. -/
structure EmployeeSnapshot where
  id : String
  name : Option String
  level : Option String
  role : Option String
  department : Option String
deriving DecidableEq, Repr

/-- `analyze_employee_from_db`: `MATCH (e:Employee {id: $emp_id})` with
optional role and department, `result.single()` taking the first match. -/
def analyze_employee_from_db (db : FactStore) (employee_id : String) :
    Option EmployeeSnapshot :=
  match db.employees.find? (fun e => e.id = employee_id) with
  | none => none
  | some e =>
    some { id := e.id
           name := e.name
           level := e.level
           role := (db.hasRole.find? (fun p => p.1 = employee_id)).map (·.2)
           department := (db.worksIn.find? (fun p => p.1 = employee_id)).map (·.2) }

/-- `get_employee_skills`: all `HAS_SKILL` edges of the employee folded into
a dict; a missing (or falsy) edge level defaults to "Basic". -/
def get_employee_skills (db : FactStore) (employee_id : String) :
    List (String × String) :=
  (db.hasSkill.filter (fun e => e.1 = employee_id)).foldl
    (fun skills rec =>
      let level := if pyTruthy rec.2.2 then rec.2.2.getD "" else "Basic"
      dictInsert skills rec.2.1 level)
    []

/-! ## decisions/rules.py -/

/-- Feature record consumed by `assess_risk` (only the `engagement` key is read). -/
structure Features where
  engagement : String
deriving DecidableEq, Repr

structure RiskResult where
  risk : String
  priority : String
  confidence : ℚ
deriving DecidableEq, Repr

/-- `assess_risk`. -/
def assess_risk (features : Features) : RiskResult :=
  if features.engagement = "low" then
    { risk := "burnout", priority := "high", confidence := 0.7 }
  else
    { risk := "none", priority := "low", confidence := 0.9 }

/-- Result record of `assess_promotion_eligibility`; the `skills` and
`confidence` keys are absent from some branches. -/
structure PromotionResult where
  eligible : Bool
  reason : String
  skills : Option (List String)
  confidence : Option ℚ
deriving DecidableEq, Repr

/-- `assess_promotion_eligibility`. -/
def assess_promotion_eligibility (db : FactStore) (employee_id : String) :
    PromotionResult :=
  match analyze_employee_from_db db employee_id with
  | none =>
    { eligible := false, reason := "Employee not found"
      skills := none, confidence := none }
  | some employee =>
    let skills := get_employee_skills db employee_id
    let level := employee.level
    let advanced_skills := (skills.filter (fun p => p.2 = "Advanced")).map (·.1)
    if level = some "Senior" ∧ 2 ≤ advanced_skills.length then
      { eligible := true
        reason := "Senior level with multiple advanced skills"
        skills := some advanced_skills, confidence := some 0.85 }
    else if level = some "Manager" ∧ 1 ≤ advanced_skills.length then
      { eligible := true
        reason := "Manager level with advanced technical skills"
        skills := some advanced_skills, confidence := some 0.7 }
    else
      { eligible := false
        reason := "Current level: " ++ pyStr level ++ ", Advanced skills: "
          ++ toString advanced_skills.length
        skills := none, confidence := some 0.9 }

/-- The fixed role → required-skills table of `recommend_skill_development`. -/
def role_skills : List (String × List String) :=
  [("Software Engineer", ["Python", "Neo4j"]),
   ("Engineering Manager", ["Leadership", "Python"]),
   ("HR Manager", ["Recruitment", "Leadership"]),
   ("Sales Executive", ["Negotiation"])]

/-- Result of `recommend_skill_development`: the not-found branch returns the
bare `{"recommendations": []}` record, the normal branch the full record. -/
inductive SkillDevResult where
  | notFound
  | ok (employee : Option String) (current_role : Option String)
       (current_skills : List (String × String))
       (recommended_skills : List String) (priority : String)
deriving DecidableEq, Repr

/-- `recommend_skill_development`. -/
def recommend_skill_development (db : FactStore) (employee_id : String) :
    SkillDevResult :=
  match analyze_employee_from_db db employee_id with
  | none => .notFound
  | some employee =>
    let current_skills := get_employee_skills db employee_id
    let role := employee.role
    let recommended :=
      match role.bind (fun r => (role_skills.find? (fun p => p.1 = r)).map (·.2)) with
      | none => []
      | some req => req.filter (fun sk => ¬ dictContains current_skills sk)
    .ok employee.name role current_skills recommended
      (if 2 ≤ recommended.length then "high" else "medium")

/-- `recommended_skills` field access; the not-found record is only ever read
through `create_action_plan`, which has already checked the employee exists. -/
def SkillDevResult.recommended_skills : SkillDevResult → List String
  | .notFound => []
  | .ok _ _ _ r _ => r

def SkillDevResult.priority : SkillDevResult → String
  | .notFound => ""
  | .ok _ _ _ _ p => p

/-- Number of distinct employees holding `skill` with a `HAS_SKILL` edge whose
`level` property equals "Advanced" (`COUNT(DISTINCT e)` of the gap query). -/
def advanced_holders (db : FactStore) (skill : String) : Nat :=
  (((db.hasSkill.filter (fun e => e.2.1 = skill ∧ e.2.2 = some "Advanced")).map
    (·.1)).dedup).length

structure SkillGap where
  skill : String
  experts : Nat
  priority : String
deriving DecidableEq, Repr

structure SkillGapsResult where
  critical_skill_gaps : List SkillGap
  total_gaps : Nat
deriving DecidableEq, Repr

/-- Loop body of `identify_skill_gaps` for one skill node. -/
def gapFor (db : FactStore) (skill_name : String) : Option SkillGap :=
  let expert_count := advanced_holders db skill_name
  if expert_count < 2 then
    some { skill := skill_name, experts := expert_count
           priority := if expert_count = 0 then "critical" else "high" }
  else
    none

/-- `identify_skill_gaps`. -/
def identify_skill_gaps (db : FactStore) : SkillGapsResult :=
  let skill_gaps := db.skills.filterMap (gapFor db)
  { critical_skill_gaps := skill_gaps, total_gaps := skill_gaps.length }

/-! ## features/engagement.py -/

/-- `engagement_level`: map a numeric survey score to an engagement level.
Scores are numeric (not necessarily integral), modelled as rationals. -/
def engagement_level (score : ℚ) : String :=
  if score ≤ 2 then "low"
  else if score = 3 then "medium"
  else "high"

/-- `get_engagement_interpretation`: lookup in
`EMPLOYEE_ATTRIBUTES["engagement"]` with default "Unknown". -/
def get_engagement_interpretation (engagement : String) : String :=
  if engagement = "low" then "At-risk, requires intervention"
  else if engagement = "medium" then "Stable, normal performance"
  else if engagement = "high" then "Highly motivated, potential leader"
  else "Unknown"

/-- The context record built by `analyze_engagement_with_context`. -/
structure EngagementContext where
  employee : Option String
  employee_id : String
  engagement_level : String
  interpretation : String
  role : Option String
  department : Option String
  level : Option String
  skills_count : Nat
  promotion_eligible : Bool
  risk_factors : List String
  opportunities : List String
deriving DecidableEq, Repr

/-- Result of `analyze_engagement_with_context`: either the
`{"status": "employee_not_found"}` record or the full context. -/
inductive EngagementAnalysis where
  | employee_not_found
  | ok (ctx : EngagementContext)
deriving DecidableEq, Repr

/-- `analyze_engagement_with_context`: the risk-factor and opportunity lists
are built by appending, in source order, the entries whose conditions hold. -/
def analyze_engagement_with_context (db : FactStore) (employee_id : String)
    (engagement : String) : EngagementAnalysis :=
  match analyze_employee_from_db db employee_id with
  | none => .employee_not_found
  | some employee =>
    let skills := get_employee_skills db employee_id
    let promotion_eligible := assess_promotion_eligibility db employee_id
    let risk_factors :=
      (if engagement = "low" then
        ["High burnout risk - intervention needed"] ++
        (if employee.level = some "Senior" then
          ["Senior-level employee at risk of leaving"] else [])
      else []) ++
      (if engagement = "medium" ∧ employee.level = some "Senior" then
        ["Senior employee with moderate engagement - monitor closely"] else [])
    let opportunities :=
      (if engagement = "high" ∧ promotion_eligible.eligible then
        ["Strong candidate for promotion"] else []) ++
      (if engagement = "high" ∧ 2 ≤ skills.length then
        ["Potential mentor for junior team members"] else []) ++
      (if engagement = "low" ∧ 2 ≤ skills.length then
        ["Consider skill-development project to boost engagement"] else [])
    .ok { employee := employee.name
          employee_id := employee_id
          engagement_level := engagement
          interpretation := get_engagement_interpretation engagement
          role := employee.role
          department := employee.department
          level := employee.level
          skills_count := skills.length
          promotion_eligible := promotion_eligible.eligible
          risk_factors := risk_factors
          opportunities := opportunities }

/-- Result record of `recommend_engagement_action`. -/
structure EngagementActionRec where
  engagement : String
  level : Option String
  role : Option String
  recommended_actions : List String
deriving DecidableEq, Repr

/-- The fixed engagement × level table of `recommend_engagement_action`;
unknown combinations (including a missing level) give `[]`. -/
def engagement_actions_table (engagement : String) (employee_level : Option String) :
    List String :=
  if engagement = "low" then
    if employee_level = some "Junior" then
      ["Schedule mentorship meeting", "Review role fit", "Discuss career growth"]
    else if employee_level = some "Senior" then
      ["One-on-one leadership discussion", "Explore new challenges", "Consider sabbatical"]
    else if employee_level = some "Manager" then
      ["Discuss team dynamics", "Executive coaching", "Rebalance responsibilities"]
    else []
  else if engagement = "medium" then
    if employee_level = some "Junior" then
      ["Provide growth opportunities", "Skill development plan", "Peer collaboration"]
    else if employee_level = some "Senior" then
      ["Leadership development program", "Project ownership", "Cross-team initiatives"]
    else if employee_level = some "Manager" then
      ["Manager effectiveness review", "Team engagement assessment", "Strategic planning"]
    else []
  else if engagement = "high" then
    if employee_level = some "Junior" then
      ["Recognize achievements", "Increase responsibilities", "Mentorship opportunities"]
    else if employee_level = some "Senior" then
      ["Leadership opportunities", "Promotion pathway", "Innovation projects"]
    else if employee_level = some "Manager" then
      ["Expand portfolio", "Strategic initiatives", "Succession planning"]
    else []
  else []

/-- `recommend_engagement_action`. -/
def recommend_engagement_action (engagement : String) (employee_level : Option String)
    (role : Option String) : EngagementActionRec :=
  { engagement := engagement
    level := employee_level
    role := role
    recommended_actions := engagement_actions_table engagement employee_level }

/-! ## actions/actions.py -/

/-- `decide_action` (legacy): notify the manager on a high-priority decision. -/
def decide_action (decision : RiskResult) : String :=
  if decision.priority = "high" then "Notify manager" else "Observe"

/-- One entry of the static `ACTION_TEMPLATES` catalog; keys absent from a
template are `none`. -/
structure ActionTemplate where
  description : String
  priority : String
  duration : String
  participants : Option (List String) := none
  budget_required : Option Bool := none
  requires_approval : Option Bool := none
deriving DecidableEq, Repr

/-- The static `ACTION_TEMPLATES` catalog. -/
def ACTION_TEMPLATES (name : String) : Option ActionTemplate :=
  if name = "one_on_one_meeting" then
    some { description := "Schedule one-on-one discussion with employee"
           priority := "immediate", duration := "60 minutes"
           participants := some ["HR Manager", "Direct Manager", "Employee"] }
  else if name = "skill_development" then
    some { description := "Enroll employee in skill development program"
           priority := "high", duration := "30-60 days"
           budget_required := some true }
  else if name = "mentorship" then
    some { description := "Pair employee with mentor"
           priority := "medium", duration := "ongoing"
           budget_required := some false }
  else if name = "promotion" then
    some { description := "Promote employee to next level"
           priority := "high", duration := "immediate"
           requires_approval := some true }
  else if name = "role_change" then
    some { description := "Transfer employee to different role"
           priority := "medium", duration := "1-2 weeks"
           requires_approval := some true }
  else if name = "training_program" then
    some { description := "Enroll in specialized training"
           priority := "high", duration := "varies"
           budget_required := some true }
  else if name = "hire_external" then
    some { description := "Hire external expert or contractor"
           priority := "critical", duration := "2-4 weeks"
           budget_required := some true, requires_approval := some true }
  else if name = "knowledge_transfer" then
    some { description := "Facilitate knowledge transfer session"
           priority := "high", duration := "2-3 hours"
           budget_required := some false }
  else none

/-- An action record as read by `generate_action_execution_report`
(`a.get("type")`, `a.get("urgency")`; both keys may be absent). -/
structure ActionRecord where
  type : Option String
  urgency : Option String
deriving DecidableEq, Repr

/-- Truthiness of `ACTION_TEMPLATES.get(a.get("type"), {}).get(field)`. -/
def templateFlag (t : Option String) (field : ActionTemplate → Option Bool) : Bool :=
  match t.bind ACTION_TEMPLATES with
  | none => false
  | some tmpl => (field tmpl).getD false

structure ActionSummary where
  total_actions : Nat
  immediate : Nat
  high_priority : Nat
  critical : Nat
deriving DecidableEq, Repr

structure ResourceRequirements where
  budget_items : Nat
  approvals_required : Nat
deriving DecidableEq, Repr

/-- The report built by `generate_action_execution_report`
(`report_date` / `next_review_date` wall-clock fields omitted). -/
structure ExecutionReport where
  employee_id : String
  action_summary : ActionSummary
  resource_requirements : ResourceRequirements
  actions : List ActionRecord
deriving DecidableEq, Repr

/-- `generate_action_execution_report`. -/
def generate_action_execution_report (employee_id : String)
    (actions_list : List ActionRecord) : ExecutionReport :=
  let total_actions := actions_list.length
  let immediate_actions := (actions_list.filter (fun a => a.urgency = some "immediate")).length
  let high_priority := (actions_list.filter (fun a => a.urgency = some "high")).length
  let critical_actions := (actions_list.filter (fun a => a.urgency = some "critical")).length
  let budget_required :=
    (actions_list.filter (fun a => templateFlag a.type ActionTemplate.budget_required)).length
  let approvals_needed :=
    (actions_list.filter (fun a => templateFlag a.type ActionTemplate.requires_approval)).length
  { employee_id := employee_id
    action_summary :=
      { total_actions := total_actions
        immediate := immediate_actions
        high_priority := high_priority
        critical := critical_actions }
    resource_requirements :=
      { budget_items := budget_required
        approvals_required := approvals_needed }
    actions := actions_list }

/-! ## decisions/core.py -/

/-- `make_decision`. -/
def make_decision (employee_features : Features) : RiskResult :=
  assess_risk employee_features

/-- The record assembled by `comprehensive_employee_assessment`
(`assessment_timestamp` wall-clock field omitted). -/
structure Assessment where
  employee_id : String
  employee : EmployeeSnapshot
  skills : List (String × String)
  promotion_eligible : PromotionResult
  skill_recommendations : SkillDevResult
  engagement_analysis : Option EngagementAnalysis
  engagement_actions : Option EngagementActionRec
deriving DecidableEq, Repr

inductive AssessmentResult where
  | error (message : String)
  | ok (a : Assessment)
deriving DecidableEq, Repr

/-- `comprehensive_employee_assessment`. -/
def comprehensive_employee_assessment (db : FactStore) (employee_id : String)
    (engagement : Option String) : AssessmentResult :=
  match analyze_employee_from_db db employee_id with
  | none => .error "Employee not found"
  | some employee =>
    let skills := get_employee_skills db employee_id
    let promotion_eligible := assess_promotion_eligibility db employee_id
    let skill_recommendations := recommend_skill_development db employee_id
    let engagement_analysis :=
      if pyTruthy engagement then
        some (analyze_engagement_with_context db employee_id (engagement.getD ""))
      else none
    let engagement_actions :=
      if pyTruthy engagement then
        some (recommend_engagement_action (engagement.getD "") employee.level employee.role)
      else none
    .ok { employee_id := employee_id
          employee := employee
          skills := skills
          promotion_eligible := promotion_eligible
          skill_recommendations := skill_recommendations
          engagement_analysis := engagement_analysis
          engagement_actions := engagement_actions }

/-- One entry of the `planned_actions` list of an action plan. -/
inductive PlannedAction where
  | skill_development (skills : List String) (priority : String) (timeline : String)
  | engagement_action (actions : List String) (priority : String) (timeline : String)
  | promotion_pathway (target_role : String) (timeline : String)
deriving DecidableEq, Repr

def PlannedAction.isSkillDevelopment : PlannedAction → Bool
  | .skill_development _ _ _ => true
  | _ => false

def PlannedAction.isEngagementAction : PlannedAction → Bool
  | .engagement_action _ _ _ => true
  | _ => false

def PlannedAction.isPromotionPathway : PlannedAction → Bool
  | .promotion_pathway _ _ => true
  | _ => false

structure CurrentState where
  skills : List (String × String)
  engagement : Option String
  promotion_eligible : Bool
deriving DecidableEq, Repr

structure ActionPlan where
  employee_id : String
  employee : EmployeeSnapshot
  current_state : CurrentState
  planned_actions : List PlannedAction
  timeline : String
deriving DecidableEq, Repr

inductive ActionPlanResult where
  | error (message : String)
  | ok (plan : ActionPlan)
deriving DecidableEq, Repr

/-- `create_action_plan`: the three planned actions are appended in source
order, each under its condition. -/
def create_action_plan (db : FactStore) (employee_id : String)
    (engagement : Option String) : ActionPlanResult :=
  match comprehensive_employee_assessment db employee_id engagement with
  | .error msg => .error msg
  | .ok assessment =>
    let planned_actions : List PlannedAction :=
      (if assessment.skill_recommendations.recommended_skills ≠ [] then
        [.skill_development assessment.skill_recommendations.recommended_skills
          assessment.skill_recommendations.priority "30-60 days"]
      else []) ++
      (if assessment.engagement_actions.isSome then
        [.engagement_action
          ((assessment.engagement_actions.map (·.recommended_actions)).getD [])
          (if engagement = some "low" then "high" else "medium")
          "immediate"]
      else []) ++
      (if assessment.promotion_eligible.eligible then
        [.promotion_pathway ("Senior " ++ pyStr assessment.employee.role) "6-12 months"]
      else [])
    .ok { employee_id := employee_id
          employee := assessment.employee
          current_state :=
            { skills := assessment.skills
              engagement := engagement
              promotion_eligible := assessment.promotion_eligible.eligible }
          planned_actions := planned_actions
          timeline := "90 days" }

/-! ## Sample fact stores

`initStore` mirrors the sample data created by `init_db` in
`decisions/neo4j_database.py`; `soloStore` holds a lone Software Engineer
whose only skill is Python at Advanced proficiency. -/

def initStore : FactStore :=
  { employees :=
      [{ id := "E1", name := some "Alice", level := some "Senior" },
       { id := "E2", name := some "Bob", level := some "Manager" },
       { id := "E3", name := some "Carol", level := some "Senior" },
       { id := "E4", name := some "David", level := some "Junior" }]
    hasRole :=
      [("E1", "Software Engineer"), ("E2", "Engineering Manager"),
       ("E3", "HR Manager"), ("E4", "Sales Executive")]
    worksIn :=
      [("E1", "Engineering"), ("E2", "Engineering"), ("E3", "HR"), ("E4", "Sales")]
    hasSkill :=
      [("E1", "Python", some "Advanced"), ("E1", "Neo4j", some "Intermediate"),
       ("E2", "Leadership", none), ("E3", "Recruitment", none),
       ("E4", "Negotiation", none)]
    reportsTo := [("E1", "E2")]
    skills := ["Python", "Neo4j", "Leadership", "Recruitment", "Negotiation"] }

def soloStore : FactStore :=
  { employees := [{ id := "E1", name := some "Eve", level := some "Junior" }]
    hasRole := [("E1", "Software Engineer")]
    worksIn := [("E1", "Engineering")]
    hasSkill := [("E1", "Python", some "Advanced")]
    reportsTo := []
    skills := ["Python", "Neo4j"] }

/-! ## Theorems -/

/-- C1 (counterexample): at the fractional survey score 5/2 the classifier
returns "high" although 5/2 is not greater than 3, so "high" does not imply
`s > 3` over numeric scores. -/
theorem C1_counterexample :
    engagement_level (5/2) = "high" ∧ ¬ ((5/2 : ℚ) > 3) := by
  constructor
  · unfold engagement_level
    norm_num
  · norm_num

/-- C1 (amended): for every numeric score `s`, `engagement_level s` is one of
"low", "medium", "high"; it is "low" iff `s ≤ 2`, "medium" iff `s = 3`, and
"high" iff `2 < s` and `s ≠ 3` (for integral scores this last condition is
equivalent to `s > 3`); the classifier is total. -/
theorem C1_engagement_level_spec (s : ℚ) :
    (engagement_level s = "low" ∨ engagement_level s = "medium" ∨
      engagement_level s = "high")
    ∧ (engagement_level s = "low" ↔ s ≤ 2)
    ∧ (engagement_level s = "medium" ↔ s = 3)
    ∧ (engagement_level s = "high" ↔ (2 < s ∧ s ≠ 3)) := by
  unfold engagement_level
  split_ifs with h1 h2
  · refine ⟨Or.inl rfl, by simp [h1], ?_, ?_⟩
    · simp only [show ¬("low" = "medium") from by decide, false_iff]
      intro h3
      rw [h3] at h1
      norm_num at h1
    · simp only [show ¬("low" = "high") from by decide, false_iff]
      intro h3
      exact absurd h1 (not_le.mpr h3.1)
  · subst h2
    refine ⟨Or.inr (Or.inl rfl), ?_, by simp, ?_⟩
    · simp only [show ¬("medium" = "low") from by decide, false_iff]
      norm_num
    · simp only [show ¬("medium" = "high") from by decide, false_iff]
      simp
  · refine ⟨Or.inr (Or.inr rfl), ?_, ?_, ?_⟩
    · simp only [show ¬("high" = "low") from by decide, false_iff]
      exact h1
    · simp only [show ¬("high" = "medium") from by decide, false_iff]
      exact h2
    · simp only [true_iff]
      exact ⟨not_le.mp h1, h2⟩

/-- C5: `assess_risk` returns exactly the burnout/high/0.7 record when the
engagement feature is "low" and exactly the none/low/0.9 record otherwise;
in particular "medium" and "high" engagement give the same result. -/
theorem C5_assess_risk_spec :
    (∀ f : Features,
      (assess_risk f =
          { risk := "burnout", priority := "high", confidence := 0.7 } ↔
        f.engagement = "low")
      ∧ (assess_risk f =
          { risk := "none", priority := "low", confidence := 0.9 } ↔
        f.engagement ≠ "low"))
    ∧ assess_risk { engagement := "medium" } = assess_risk { engagement := "high" } := by
  refine ⟨fun f => ?_, by simp [assess_risk]⟩
  unfold assess_risk
  split_ifs with h
  · simp [h, RiskResult.mk.injEq]
  · simp [h, RiskResult.mk.injEq]

/-- C10: composing `make_decision` with `decide_action` yields "Notify
manager" exactly when the feature record's engagement is "low", and
"Observe" otherwise. -/
theorem C10_decide_action_of_make_decision (f : Features) :
    (decide_action (make_decision f) = "Notify manager" ↔ f.engagement = "low")
    ∧ (decide_action (make_decision f) = "Observe" ↔ f.engagement ≠ "low") := by
  unfold make_decision assess_risk decide_action
  split_ifs with h <;> simp_all

/-- Number of skills the employee holds at "Advanced" proficiency, read off
the skills mapping returned by `get_employee_skills`. -/
def advancedCount (db : FactStore) (employee_id : String) : Nat :=
  ((get_employee_skills db employee_id).filter (fun p => p.2 = "Advanced")).length

/-- A store with a lone Senior employee holding two Advanced skills. -/
def seniorStore : FactStore :=
  { employees := [{ id := "E1", name := some "Alice", level := some "Senior" }]
    hasRole := [("E1", "Software Engineer")]
    worksIn := [("E1", "Engineering")]
    hasSkill := [("E1", "Python", some "Advanced"), ("E1", "Neo4j", some "Advanced")]
    reportsTo := []
    skills := ["Python", "Neo4j"] }

/-- C2: for an employee present in the store, promotion eligibility holds
exactly for a Senior with at least two Advanced skills or a Manager with at
least one; the confidence is 0.85, 0.7 and 0.9 in the Senior-eligible,
Manager-eligible and ineligible branches respectively. -/
theorem C2_assess_promotion_eligibility_spec (db : FactStore) (id : String)
    (emp : EmployeeSnapshot) (h : analyze_employee_from_db db id = some emp) :
    ((assess_promotion_eligibility db id).eligible = true ↔
      ((emp.level = some "Senior" ∧ 2 ≤ advancedCount db id) ∨
       (emp.level = some "Manager" ∧ 1 ≤ advancedCount db id)))
    ∧ (emp.level = some "Senior" ∧ 2 ≤ advancedCount db id →
        (assess_promotion_eligibility db id).confidence = some 0.85)
    ∧ (emp.level = some "Manager" ∧ 1 ≤ advancedCount db id →
        (assess_promotion_eligibility db id).confidence = some 0.7)
    ∧ ((assess_promotion_eligibility db id).eligible = false →
        (assess_promotion_eligibility db id).confidence = some 0.9) := by
  have hlen : ∀ l : List (String × String),
      ((l.filter (fun p => p.2 = "Advanced")).map (·.1)).length =
        (l.filter (fun p => p.2 = "Advanced")).length := by
    intro l; exact List.length_map _ _
  unfold assess_promotion_eligibility advancedCount
  rw [h]
  simp only [hlen]
  split_ifs with h1 h2
  · refine ⟨by simp [h1], fun _ => rfl, ?_, by simp⟩
    rintro ⟨hm, -⟩
    rw [h1.1] at hm
    simp at hm
  · refine ⟨by simp [h2], ?_, fun _ => rfl, by simp⟩
    rintro hs
    exact absurd hs h1
  · refine ⟨by simp [h1, h2], ?_, ?_, fun _ => rfl⟩
    · rintro hs; exact absurd hs h1
    · rintro hm; exact absurd hm h2

/-- C2 witness: in `seniorStore`, employee E1 is a Senior with two Advanced
skills, hence eligible with confidence 0.85. -/
theorem C2_witness :
    (assess_promotion_eligibility seniorStore "E1").eligible = true ∧
    (assess_promotion_eligibility seniorStore "E1").confidence = some 0.85 := by
  have h := C2_assess_promotion_eligibility_spec seniorStore "E1"
    { id := "E1", name := some "Alice", level := some "Senior"
      role := some "Software Engineer", department := some "Engineering" }
    (by decide)
  exact ⟨h.1.mpr (Or.inl ⟨rfl, by decide⟩), h.2.1 ⟨rfl, by decide⟩⟩

/-- C4: for an employee id absent from the store, every rule-engine entry
point taking an employee id returns its structured not-found result. -/
theorem C4_not_found_results (db : FactStore) (id : String)
    (h : analyze_employee_from_db db id = none) :
    analyze_employee_from_db db id = none
    ∧ assess_promotion_eligibility db id =
        { eligible := false, reason := "Employee not found"
          skills := none, confidence := none }
    ∧ recommend_skill_development db id = .notFound
    ∧ (∀ eng : String,
        analyze_engagement_with_context db id eng = .employee_not_found)
    ∧ (∀ eng : Option String,
        comprehensive_employee_assessment db id eng = .error "Employee not found") := by
  refine ⟨h, ?_, ?_, fun eng => ?_, fun eng => ?_⟩
  · unfold assess_promotion_eligibility
    rw [h]
  · unfold recommend_skill_development
    rw [h]
  · unfold analyze_engagement_with_context
    rw [h]
  · unfold comprehensive_employee_assessment
    rw [h]

/-- C4 witness: id "E9" does not exist in `initStore`; all entry points
report not-found for it. -/
theorem C4_witness :
    analyze_employee_from_db initStore "E9" = none
    ∧ assess_promotion_eligibility initStore "E9" =
        { eligible := false, reason := "Employee not found"
          skills := none, confidence := none }
    ∧ recommend_skill_development initStore "E9" = .notFound
    ∧ analyze_engagement_with_context initStore "E9" "low" = .employee_not_found
    ∧ comprehensive_employee_assessment initStore "E9" (some "low") =
        .error "Employee not found" := by
  have h := C4_not_found_results initStore "E9" (by decide)
  exact ⟨h.1, h.2.1, h.2.2.1, h.2.2.2.1 "low", h.2.2.2.2 (some "low")⟩

lemma gapFor_eq_some (db : FactStore) (a : String) (g : SkillGap) :
    gapFor db a = some g ↔
      advanced_holders db a < 2 ∧
      g = { skill := a, experts := advanced_holders db a
            priority := if advanced_holders db a = 0 then "critical" else "high" } := by
  unfold gapFor
  by_cases h : advanced_holders db a < 2
  · rw [if_pos h]
    simp only [Option.some.injEq]
    constructor
    · intro hg
      exact ⟨h, hg.symm⟩
    · intro hg
      exact hg.2.symm
  · rw [if_neg h]
    simp [h]

/-- Membership in the gap list of `identify_skill_gaps`, characterized by the
advanced-holder count of the skill. -/
lemma mem_skill_gaps (db : FactStore) (g : SkillGap) :
    g ∈ (identify_skill_gaps db).critical_skill_gaps ↔
      g.skill ∈ db.skills ∧ advanced_holders db g.skill < 2 ∧
      g.experts = advanced_holders db g.skill ∧
      g.priority = (if advanced_holders db g.skill = 0 then "critical" else "high") := by
  unfold identify_skill_gaps
  simp only [List.mem_filterMap, gapFor_eq_some]
  constructor
  · rintro ⟨a, ha, hlt, rfl⟩
    exact ⟨ha, hlt, rfl, rfl⟩
  · rintro ⟨hmem, hlt, hexp, hprio⟩
    refine ⟨g.skill, hmem, hlt, ?_⟩
    cases g
    simp_all

/-- C3: a skill node appears in the gap list with priority "critical" iff it
has no Advanced holder, with priority "high" iff it has exactly one, is
absent from the gap list iff it has at least two, and `total_gaps` is the
length of the gap list. -/
theorem C3_identify_skill_gaps_spec (db : FactStore) (s : String)
    (hs : s ∈ db.skills) :
    ((∃ g ∈ (identify_skill_gaps db).critical_skill_gaps,
        g.skill = s ∧ g.priority = "critical") ↔ advanced_holders db s = 0)
    ∧ ((∃ g ∈ (identify_skill_gaps db).critical_skill_gaps,
        g.skill = s ∧ g.priority = "high") ↔ advanced_holders db s = 1)
    ∧ ((∀ g ∈ (identify_skill_gaps db).critical_skill_gaps, g.skill ≠ s) ↔
        2 ≤ advanced_holders db s)
    ∧ (identify_skill_gaps db).total_gaps =
        (identify_skill_gaps db).critical_skill_gaps.length := by
  refine ⟨?_, ?_, ?_, rfl⟩
  · constructor
    · rintro ⟨g, hg, rfl, hprio⟩
      rw [mem_skill_gaps] at hg
      by_contra hne
      rw [hg.2.2.2, if_neg hne] at hprio
      exact absurd hprio (by decide)
    · intro h0
      refine ⟨{ skill := s, experts := 0, priority := "critical" },
        mem_skill_gaps db _ |>.mpr
          ⟨hs, by show advanced_holders db s < 2; omega, by simp [h0], by simp [h0]⟩,
        rfl, rfl⟩
  · constructor
    · rintro ⟨g, hg, rfl, hprio⟩
      rw [mem_skill_gaps] at hg
      by_cases h0 : advanced_holders db g.skill = 0
      · rw [hg.2.2.2, if_pos h0] at hprio
        exact absurd hprio (by decide)
      · have := hg.2.1
        omega
    · intro h1
      refine ⟨{ skill := s, experts := 1, priority := "high" },
        mem_skill_gaps db _ |>.mpr
          ⟨hs, by show advanced_holders db s < 2; omega, by simp [h1], by simp [h1]⟩,
        rfl, rfl⟩
  · constructor
    · intro hall
      by_contra hlt
      push_neg at hlt
      exact hall
        { skill := s, experts := advanced_holders db s
          priority := if advanced_holders db s = 0 then "critical" else "high" }
        (mem_skill_gaps db _ |>.mpr ⟨hs, hlt, rfl, rfl⟩) rfl
    · intro h2 g hg hskill
      rw [mem_skill_gaps] at hg
      rw [hskill] at hg
      omega

/-- C3 witness: in `initStore`, "Python" has exactly one Advanced holder and
appears in the gap list with priority "high". -/
theorem C3_witness :
    (∃ g ∈ (identify_skill_gaps initStore).critical_skill_gaps,
        g.skill = "Python" ∧ g.priority = "high")
    ∧ advanced_holders initStore "Python" = 1 := by
  have h := C3_identify_skill_gaps_spec initStore "Python" (by decide)
  exact ⟨h.2.1.mpr (by decide), by decide⟩

lemma dictContains_iff (d : List (String × String)) (k : String) :
    dictContains d k = true ↔ k ∈ d.map Prod.fst := by
  simp [dictContains, List.any_eq_true, List.mem_map]

/-- The required-skill list the fixed role table assigns to an optional
role: empty when the role is missing or not in the table. -/
def requiredSkillsFor (role : Option String) : List String :=
  (role.bind (fun r => (role_skills.find? (fun p => p.1 = r)).map (·.2))).getD []

/-- C6: for an employee present in the store, the recommended skills are
exactly the required skills of the employee's role (per the fixed table,
empty for an unlisted role) that are not among the current skill names, and
the priority is "high" iff at least two skills are recommended, else
"medium". -/
theorem C6_recommend_skill_development_spec (db : FactStore) (id : String)
    (emp : EmployeeSnapshot) (h : analyze_employee_from_db db id = some emp) :
    recommend_skill_development db id =
      .ok emp.name emp.role (get_employee_skills db id)
        ((requiredSkillsFor emp.role).filter
          (fun sk => sk ∉ (get_employee_skills db id).map Prod.fst))
        (if 2 ≤ ((requiredSkillsFor emp.role).filter
            (fun sk => sk ∉ (get_employee_skills db id).map Prod.fst)).length
         then "high" else "medium") := by
  unfold recommend_skill_development requiredSkillsFor
  rw [h]
  have hfil : ∀ req : List String,
      req.filter (fun sk => !dictContains (get_employee_skills db id) sk) =
      req.filter (fun sk => sk ∉ (get_employee_skills db id).map Prod.fst) := by
    intro req
    apply List.filter_congr
    intro x _
    by_cases hx : x ∈ (get_employee_skills db id).map Prod.fst
    · have ht := (dictContains_iff (get_employee_skills db id) x).mpr hx
      simp [ht, hx]
    · have hf : dictContains (get_employee_skills db id) x = false := by
        rcases Bool.eq_false_or_eq_true
            (dictContains (get_employee_skills db id) x) with hb | hb
        · exact absurd ((dictContains_iff (get_employee_skills db id) x).mp hb) hx
        · exact hb
      simp [hf, hx]
  cases hrole : emp.role.bind
      (fun r => (role_skills.find? (fun p => p.1 = r)).map (·.2)) with
  | none => simp [hrole]
  | some req => simp [hrole, hfil]

/-- C6 witness: a Software Engineer whose only current skill is Python at
Advanced proficiency is recommended exactly ["Neo4j"] with priority
"medium". -/
theorem C6_witness :
    recommend_skill_development soloStore "E1" =
      .ok (some "Eve") (some "Software Engineer") [("Python", "Advanced")]
        ["Neo4j"] "medium" := by
  have h := C6_recommend_skill_development_spec soloStore "E1"
    { id := "E1", name := some "Eve", level := some "Junior"
      role := some "Software Engineer", department := some "Engineering" }
    (by decide)
  rw [h]
  decide

/-- The truthy template-field lookup of the report equals a strict lookup of
`some true` in the catalog. -/
lemma templateFlag_eq (t : Option String) (field : ActionTemplate → Option Bool) :
    templateFlag t field =
      decide ((t.bind ACTION_TEMPLATES).bind field = some true) := by
  unfold templateFlag
  cases ht : t.bind ACTION_TEMPLATES with
  | none => simp
  | some tmpl =>
    cases hf : field tmpl with
    | none => simp [hf]
    | some b => cases b <;> simp [hf]

/-- C9: the report's summary counts the actions of each urgency tier,
`total_actions` is the list length, and the resource requirements count the
actions whose type the static template catalog marks as requiring budget or
approval; on a single "hire_external" action both resource counts are 1. -/
theorem C9_generate_action_execution_report_spec :
    (∀ (id : String) (actions_list : List ActionRecord),
      (generate_action_execution_report id actions_list).action_summary.total_actions
          = actions_list.length
      ∧ (generate_action_execution_report id actions_list).action_summary.immediate
          = actions_list.countP (fun a => a.urgency = some "immediate")
      ∧ (generate_action_execution_report id actions_list).action_summary.high_priority
          = actions_list.countP (fun a => a.urgency = some "high")
      ∧ (generate_action_execution_report id actions_list).action_summary.critical
          = actions_list.countP (fun a => a.urgency = some "critical")
      ∧ (generate_action_execution_report id actions_list).resource_requirements.budget_items
          = actions_list.countP (fun a =>
              (a.type.bind ACTION_TEMPLATES).bind ActionTemplate.budget_required = some true)
      ∧ (generate_action_execution_report id actions_list).resource_requirements.approvals_required
          = actions_list.countP (fun a =>
              (a.type.bind ACTION_TEMPLATES).bind ActionTemplate.requires_approval = some true))
    ∧ (generate_action_execution_report "E1"
          [{ type := some "hire_external", urgency := some "critical" }]).resource_requirements
        = { budget_items := 1, approvals_required := 1 } := by
  constructor
  · intro id actions_list
    refine ⟨rfl, ?_, ?_, ?_, ?_, ?_⟩ <;>
      simp [generate_action_execution_report, List.countP_eq_length_filter, templateFlag_eq]
  · decide

set_option maxHeartbeats 1000000 in
/-- C8: for an employee present in the store, the context's risk factors and
opportunities are populated by exactly the five conditional rules of
`analyze_engagement_with_context` and by nothing else. -/
theorem C8_analyze_engagement_with_context_spec (db : FactStore) (id : String)
    (emp : EmployeeSnapshot) (eng : String)
    (h : analyze_employee_from_db db id = some emp) :
    ∃ ctx, analyze_engagement_with_context db id eng = .ok ctx
      ∧ ("High burnout risk - intervention needed" ∈ ctx.risk_factors ↔ eng = "low")
      ∧ ("Senior-level employee at risk of leaving" ∈ ctx.risk_factors ↔
          eng = "low" ∧ emp.level = some "Senior")
      ∧ ("Senior employee with moderate engagement - monitor closely" ∈ ctx.risk_factors ↔
          eng = "medium" ∧ emp.level = some "Senior")
      ∧ (∀ r ∈ ctx.risk_factors,
          r = "High burnout risk - intervention needed" ∨
          r = "Senior-level employee at risk of leaving" ∨
          r = "Senior employee with moderate engagement - monitor closely")
      ∧ ("Strong candidate for promotion" ∈ ctx.opportunities ↔
          eng = "high" ∧ (assess_promotion_eligibility db id).eligible = true)
      ∧ ("Potential mentor for junior team members" ∈ ctx.opportunities ↔
          eng = "high" ∧ 2 ≤ (get_employee_skills db id).length)
      ∧ ("Consider skill-development project to boost engagement" ∈ ctx.opportunities ↔
          eng = "low" ∧ 2 ≤ (get_employee_skills db id).length)
      ∧ (∀ o ∈ ctx.opportunities,
          o = "Strong candidate for promotion" ∨
          o = "Potential mentor for junior team members" ∨
          o = "Consider skill-development project to boost engagement") := by
  unfold analyze_engagement_with_context
  rw [h]
  refine ⟨_, rfl, ?_, ?_, ?_, ?_, ?_, ?_, ?_, ?_⟩ <;>
    by_cases h1 : eng = "low" <;>
    by_cases h2 : emp.level = some "Senior" <;>
    by_cases h3 : eng = "medium" <;>
    by_cases h4 : eng = "high" <;>
    by_cases h5 : (assess_promotion_eligibility db id).eligible = true <;>
    by_cases h6 : 2 ≤ (get_employee_skills db id).length <;>
    simp_all

/-- C8 witness: Alice (E1, Senior, 2 skills, not promotion-eligible) at
"low" engagement. -/
theorem C8_witness :
    ∃ ctx, analyze_engagement_with_context initStore "E1" "low" = .ok ctx
      ∧ ("High burnout risk - intervention needed" ∈ ctx.risk_factors ↔
          "low" = "low")
      ∧ ("Senior-level employee at risk of leaving" ∈ ctx.risk_factors ↔
          "low" = "low" ∧ (some "Senior" : Option String) = some "Senior")
      ∧ ("Senior employee with moderate engagement - monitor closely" ∈ ctx.risk_factors ↔
          "low" = "medium" ∧ (some "Senior" : Option String) = some "Senior")
      ∧ (∀ r ∈ ctx.risk_factors,
          r = "High burnout risk - intervention needed" ∨
          r = "Senior-level employee at risk of leaving" ∨
          r = "Senior employee with moderate engagement - monitor closely")
      ∧ ("Strong candidate for promotion" ∈ ctx.opportunities ↔
          "low" = "high" ∧ (assess_promotion_eligibility initStore "E1").eligible = true)
      ∧ ("Potential mentor for junior team members" ∈ ctx.opportunities ↔
          "low" = "high" ∧ 2 ≤ (get_employee_skills initStore "E1").length)
      ∧ ("Consider skill-development project to boost engagement" ∈ ctx.opportunities ↔
          "low" = "low" ∧ 2 ≤ (get_employee_skills initStore "E1").length)
      ∧ (∀ o ∈ ctx.opportunities,
          o = "Strong candidate for promotion" ∨
          o = "Potential mentor for junior team members" ∨
          o = "Consider skill-development project to boost engagement") :=
  C8_analyze_engagement_with_context_spec initStore "E1"
    { id := "E1", name := some "Alice", level := some "Senior"
      role := some "Software Engineer", department := some "Engineering" }
    "low" (by decide)

set_option maxHeartbeats 1000000 in
/-- C7: for an employee present in the store, the action plan's timeline is
"90 days" and its planned actions contain a skill-development entry iff some
skill is recommended, an engagement-action entry iff an engagement level was
supplied, and a promotion-pathway entry iff the employee is
promotion-eligible. -/
theorem C7_create_action_plan_spec (db : FactStore) (id : String)
    (emp : EmployeeSnapshot) (engagement : Option String)
    (h : analyze_employee_from_db db id = some emp)
    (heng : engagement = none ∨ engagement = some "low" ∨
            engagement = some "medium" ∨ engagement = some "high") :
    ∃ plan, create_action_plan db id engagement = .ok plan
      ∧ plan.timeline = "90 days"
      ∧ ((∃ a ∈ plan.planned_actions, a.isSkillDevelopment = true) ↔
          (recommend_skill_development db id).recommended_skills ≠ [])
      ∧ ((∃ a ∈ plan.planned_actions, a.isEngagementAction = true) ↔
          engagement ≠ none)
      ∧ ((∃ a ∈ plan.planned_actions, a.isPromotionPathway = true) ↔
          (assess_promotion_eligibility db id).eligible = true) := by
  unfold create_action_plan comprehensive_employee_assessment
  rw [h]
  rcases heng with rfl | rfl | rfl | rfl <;>
    refine ⟨_, rfl, rfl, ?_, ?_, ?_⟩ <;>
    by_cases hs : (recommend_skill_development db id).recommended_skills = [] <;>
    by_cases hp : (assess_promotion_eligibility db id).eligible = true <;>
    simp_all [pyTruthy, PlannedAction.isSkillDevelopment,
      PlannedAction.isEngagementAction, PlannedAction.isPromotionPathway]

/-- C7 witness: Alice (E1) with engagement "low", no recommended skills and
no promotion eligibility gets exactly one planned action, an
engagement-action entry with priority "high". -/
theorem C7_witness :
    (∃ plan, create_action_plan initStore "E1" (some "low") = .ok plan
      ∧ plan.timeline = "90 days"
      ∧ ((∃ a ∈ plan.planned_actions, a.isSkillDevelopment = true) ↔
          (recommend_skill_development initStore "E1").recommended_skills ≠ [])
      ∧ ((∃ a ∈ plan.planned_actions, a.isEngagementAction = true) ↔
          (some "low" : Option String) ≠ none)
      ∧ ((∃ a ∈ plan.planned_actions, a.isPromotionPathway = true) ↔
          (assess_promotion_eligibility initStore "E1").eligible = true))
    ∧ create_action_plan initStore "E1" (some "low") =
        .ok { employee_id := "E1"
              employee := { id := "E1", name := some "Alice", level := some "Senior"
                            role := some "Software Engineer"
                            department := some "Engineering" }
              current_state :=
                { skills := [("Python", "Advanced"), ("Neo4j", "Intermediate")]
                  engagement := some "low"
                  promotion_eligible := false }
              planned_actions :=
                [.engagement_action
                  ["One-on-one leadership discussion", "Explore new challenges",
                   "Consider sabbatical"]
                  "high" "immediate"]
              timeline := "90 days" } :=
  ⟨C7_create_action_plan_spec initStore "E1"
    { id := "E1", name := some "Alice", level := some "Senior"
      role := some "Software Engineer", department := some "Engineering" }
    (some "low") (by decide) (Or.inr (Or.inl rfl)),
   by decide⟩

end AIDecision
